import Mathlib

/-!
# Verification of the `wwt_api_client.constellations` client library

A shallow embedding, in Lean 4, of the WWT Constellations API client
(`wwt_api_client/constellations/__init__.py`, `data.py`, `handles.py`),
together with theorems settling the specification claims about it.

Modelling conventions:

* Python strings are Lean `String`; substring / suffix tests are expressed
  on the underlying `List Char` (`·.data`), matching Python's `in` and
  `str.endswith` semantics.
* Python `float` fields are modelled as `Rat`.  No theorem below depends on
  float rounding: numeric values are only carried around, never compared
  after arithmetic (the one arithmetic site, `add_scene_from_place`, fails
  before its numbers are ever used).
* Python exceptions are an explicit error type `Err`; fallible code returns
  `Except Err _`.  The constructors follow the specification's error
  taxonomy (ConfigError, ApiError, ValidationError, …); the Python code
  raises `Exception` / `ValueError` / `TypeError` / `KeyError` at the
  corresponding sites.
* Environment variables are an explicit `Env` record; the HTTP transport is
  an explicit `HttpResponse` record; the image-lookup endpoint used by
  `add_scene_from_place` is a function argument.
-/

/-- The error taxonomy of the specification, used to classify the exceptions
raised by the Python code. -/
inductive Err where
  /-- required URLs cannot be resolved (`Exception` in `ClientConfig.new_default`) -/
  | configError (msg : String)
  /-- non-success HTTP response (`requests.HTTPError` re-raised by `_send_and_check`) -/
  | apiError (msg : String)
  /-- caller-supplied argument out of contract (`ValueError` in `handles.py`) -/
  | validationError (msg : String)
  /-- response JSON missing or mistyped required fields (marshmallow load failure) -/
  | schemaError (msg : String)
  /-- adapter could not resolve a referenced image (`Exception` in `add_scene_from_place`) -/
  | lookupError (msg : String)
  /-- malformed SPDX license expression (`ExpressionError` in `ImageContentPermissions`) -/
  | licenseError (msg : String)
  /-- Python `TypeError` (e.g. calling a constructor with a wrong keyword argument) -/
  | typeError (msg : String)
  /-- Python `KeyError` (e.g. `dict.pop` on a missing key) -/
  | keyError (key : String)
deriving DecidableEq, Repr

/-! ## Python string primitives -/

/-- Python's `needle in hay` substring test. -/
def pyContains (hay needle : String) : Bool :=
  decide (needle.data <:+: hay.data)

/-- Python's `s.endswith(suffix)`. -/
def pyEndsWith (s suffix : String) : Bool :=
  decide (suffix.data <:+ s.data)

/-- Python's `s[:-1]`: drop the final character (identity on `""`). -/
def pyDropLast (s : String) : String :=
  ⟨s.data.dropLast⟩

/-! ## `ClientConfig` (`constellations/__init__.py`) -/

/-- The environment variables read by `ClientConfig.new_default`. -/
structure Env where
  nuxt_public_api_url : Option String
  wwt_api_client_id : Option String
  nuxt_public_keycloak_url : Option String
  keycloak_url : Option String

/-- Configuration settings for a WWT Constellations client
(`ClientConfig` dataclass). -/
structure ClientConfig where
  id_provider_url : String
  client_id : String
  api_url : String
deriving DecidableEq, Repr

/-- `ClientConfig.new_default`: derive a configuration from the environment.
Mirrors the Python classmethod line by line; the two `raise Exception` sites
are the specification's `ConfigError`. -/
def ClientConfig.new_default (env : Env) : Except Err ClientConfig :=
  let client_id := env.wwt_api_client_id.getD "cli-tool"
  match env.nuxt_public_api_url with
  | none =>
      .error (.configError
        "until WWT Constellations is released, you must set the environment variable NUXT_PUBLIC_API_URL")
  | some api_url0 =>
      let default_id_base : Option String :=
        if pyContains api_url0 "localhost" then
          some "http://localhost:8080/"
        else if pyContains api_url0 "wwtelescope.dev" then
          some "https://wwtelescope.dev/auth/"
        else
          none
      let api_url := if pyEndsWith api_url0 "/" then pyDropLast api_url0 else api_url0
      let id_base0 : Option String :=
        match env.nuxt_public_keycloak_url with
        | some v => some v
        | none =>
            match env.keycloak_url with
            | some v => some v
            | none => default_id_base
      match id_base0 with
      | none =>
          .error (.configError
            "unable to infer the WWT Constellations Keycloak URL; set the environment variable NUXT_PUBLIC_KEYCLOAK_URL")
      | some id_base1 =>
          let id_base := if pyEndsWith id_base1 "/" then id_base1 else id_base1 ++ "/"
          .ok { id_provider_url := id_base ++ "realms/constellations"
                client_id := client_id
                api_url := api_url }

/-- `ClientConfig.new_dev`: the hard-coded development-environment
configuration. -/
def ClientConfig.new_dev : ClientConfig :=
  { id_provider_url := "https://wwtelescope.dev/auth/realms/constellations"
    client_id := "cli-tool"
    api_url := "https://api.wwtelescope.dev/" }

/-! ## Python values and the null-stripping normalizer
(`_strip_nulls_in_place`, identical in `__init__.py` and `data.py`) -/

mutual
/-- A Python value as seen by `_strip_nulls_in_place`: the code only
distinguishes dictionaries, `None`, and everything else; lists are kept as a
separate constructor because the specification remarks that the stripper
does not descend into them. -/
inductive PyValue where
  /-- Python `None` -/
  | pynone : PyValue
  /-- any non-dict, non-list, non-`None` value (numbers, strings, booleans, …) -/
  | atom : Nat → PyValue
  /-- a Python list -/
  | pylist : PyList → PyValue
  /-- a Python dict -/
  | pdict : PyDict → PyValue

/-- A list of Python values. -/
inductive PyList where
  | nil : PyList
  | cons : PyValue → PyList → PyList

/-- A Python dict as an ordered association list (Python dicts preserve
insertion order and have unique keys). -/
inductive PyDict where
  | nil : PyDict
  | cons : String → PyValue → PyDict → PyDict
end

/-- `val is None`. -/
def PyValue.isNone : PyValue → Bool
  | .pynone => true
  | _ => false

mutual
/-- `_strip_nulls_in_place` acting on a value: dictionaries are stripped,
everything else (including lists) is left untouched.  The Python function is
only ever called on dicts; this wrapper mirrors its recursion, which visits
`val` exactly when `isinstance(val, dict)`. -/
def stripNulls : PyValue → PyValue
  | .pdict d => .pdict (stripNullsDict d)
  | v => v

/-- `_strip_nulls_in_place` proper: for each key, recurse when the value is a
dict, drop the key when the value is `None`, keep it unchanged otherwise. -/
def stripNullsDict : PyDict → PyDict
  | .nil => .nil
  | .cons k v rest =>
      match v with
      | .pdict d => .cons k (.pdict (stripNullsDict d)) (stripNullsDict rest)
      | .pynone => stripNullsDict rest
      | v => .cons k v (stripNullsDict rest)
end

mutual
/-- No key bound to `None` occurs at any depth of *dictionary* nesting
(lists are not inspected, mirroring the stripper's reach). -/
def PyValue.noneFree : PyValue → Bool
  | .pdict d => d.noneFree
  | _ => true

/-- `PyValue.noneFree` on every entry of a dict. -/
def PyDict.noneFree : PyDict → Bool
  | .nil => true
  | .cons _ v rest => !v.isNone && v.noneFree && rest.noneFree
end

/-! ## The authenticated-send primitive (`CxClient._send_and_check`) -/

/-- The part of a `requests.Response` that `_send_and_check` inspects. -/
structure HttpResponse where
  status_code : Nat
  reason : String
  url : String
  text : String
deriving DecidableEq, Repr

/-- The message built by `requests.Response.raise_for_status` for a 4xx/5xx
status (the HTTP transport collaborator): `"<status> Client Error: <reason>
for url: <url>"`, or `"Server Error"` for 5xx.  Statuses outside
`[400, 600)` do not raise. -/
def httpErrorMessage (r : HttpResponse) : String :=
  if r.status_code < 500 then
    toString r.status_code ++ " Client Error: " ++ r.reason ++ " for url: " ++ r.url
  else
    toString r.status_code ++ " Server Error: " ++ r.reason ++ " for url: " ++ r.url

/-- `requests.Response.raise_for_status`: raises `HTTPError` exactly for
status codes in `[400, 600)`; otherwise the call is a no-op. -/
def raise_for_status (r : HttpResponse) : Except Err HttpResponse :=
  if 400 ≤ r.status_code ∧ r.status_code < 600 then
    .error (.apiError (httpErrorMessage r))
  else
    .ok r

/-- `CxClient._send_and_check`, response-checking half: on an `HTTPError`
the handler rewrites the exception's message to
`f"{e}: {e.response.text}"` and re-raises; otherwise the raw response is
returned unchanged.  (Token acquisition and the transport itself are the
external collaborators that produced `r`.) -/
def send_and_check (r : HttpResponse) : Except Err HttpResponse :=
  match raise_for_status r with
  | .error (.apiError m) => .error (.apiError (m ++ ": " ++ r.text))
  | .error e => .error e
  | .ok resp => .ok resp

/-! ## Pagination-argument validation
(`HandleClient.scene_info`, `HandleClient.get_timeline`) -/

/-- A Python scalar as passed for a page argument. -/
inductive PyScalar where
  | int (n : Int)
  | float (q : Rat)
  | str (s : String)
  | pynone
deriving DecidableEq, Repr

/-- Truncation toward zero, Python's `int(float)`. -/
def pyTrunc (q : Rat) : Int :=
  q.num.tdiv q.den

/-- Python `int(s)` on a decimal string: surrounding spaces, an optional
sign, then at least one digit (other numeral forms are not exercised by the
claims). -/
def pyStrToInt (s : String) : Option Int :=
  let t := s.data.dropWhile (· = ' ')
  let t := (t.reverse.dropWhile (· = ' ')).reverse
  let signDigits : Int × List Char :=
    match t with
    | '-' :: rest => (-1, rest)
    | '+' :: rest => (1, rest)
    | rest => (1, rest)
  if signDigits.2 ≠ [] ∧ signDigits.2.all (·.isDigit) then
    some (signDigits.1 *
      (signDigits.2.foldl (fun acc c => acc * 10 + (c.toNat - '0'.toNat)) 0 : Nat))
  else
    none

/-- Python `int(x)`: identity on ints, truncation on floats, decimal parse
on strings; `None` (and other objects) raise, modelled as `none`. -/
def pyToInt : PyScalar → Option Int
  | .int n => some n
  | .float q => some (pyTrunc q)
  | .str s => pyStrToInt s
  | .pynone => none

/-- `HandleClient.scene_info` up to its network call: the two
`try: use_x = int(x); assert …; except: raise ValueError` blocks.  On
success, returns the `(page, pagesize)` pair sent as query parameters; the
request is only issued in the `.ok` case. -/
def scene_info_params (page_num page_size : PyScalar) : Except Err (Int × Int) :=
  match pyToInt page_num with
  | none => .error (.validationError "invalid page_num argument")
  | some use_page_num =>
      if 0 ≤ use_page_num then
        match pyToInt page_size with
        | none => .error (.validationError "invalid page_size argument")
        | some use_page_size =>
            if 1 ≤ use_page_size ∧ use_page_size ≤ 100 then
              .ok (use_page_num, use_page_size)
            else
              .error (.validationError "invalid page_size argument")
      else
        .error (.validationError "invalid page_num argument")

/-- `HandleClient.get_timeline` up to its network call: the single
`page_num` validation block.  On success, returns the `page` query
parameter. -/
def get_timeline_params (page_num : PyScalar) : Except Err Int :=
  match pyToInt page_num with
  | none => .error (.validationError "invalid page_num argument")
  | some use_page_num =>
      if 0 ≤ use_page_num then
        .ok use_page_num
      else
        .error (.validationError "invalid page_num argument")

/-! ## Model layer (`constellations/data.py`)

One Lean structure per `@dataclass_json @dataclass` type, fields in source
order.  Python `float` is `Rat`, `int` is `Int`, `Optional[T]` is
`Option T`. -/

/-- External collaborators of the model layer: the SPDX license validator
(`CX_LICENSING.validate(…, strict=True)` reporting no errors) and the HTML
allow-list sanitizer (`CX_SANITIZER.sanitize`).  Both live outside this
repository, so they are explicit parameters of the embedding. -/
structure ExternalCtx where
  licenseOk : String → Bool
  sanitize : String → String

structure HandleInfo where
  handle : String
  display_name : String
deriving DecidableEq, Repr

structure HandlePermissions where
  handle : String
  view_dashboard : Bool
deriving DecidableEq, Repr

structure HandleUpdate where
  display_name : Option String
deriving DecidableEq, Repr

structure HandleImageStats where
  count : Int
deriving DecidableEq, Repr

structure HandleSceneStats where
  count : Int
  impressions : Int
  likes : Int
deriving DecidableEq, Repr

structure HandleStats where
  handle : String
  images : HandleImageStats
  scenes : HandleSceneStats
deriving DecidableEq, Repr

/-- A description of the WWT data parameters associated with a
Constellations image. -/
structure ImageWwt where
  base_degrees_per_tile : Rat
  bottoms_up : Bool
  center_x : Rat
  center_y : Rat
  file_type : String
  offset_x : Rat
  offset_y : Rat
  projection : String
  quad_tree_map : String
  rotation : Rat
  tile_levels : Int
  width_factor : Int
  thumbnail_url : String
deriving DecidableEq, Repr

/-- A description of data storage associated with a Constellations image. -/
structure ImageStorage where
  legacy_url_template : Option String
deriving DecidableEq, Repr

/-- Summary information about a Constellations image.  The `id` field is
serialized under the wire name `"_id"`. -/
structure ImageSummary where
  id : String
  handle_id : String
  creation_date : String
  note : String
  storage : ImageStorage
deriving DecidableEq, Repr

structure ImageContentPermissions where
  copyright : String
  credits : Option String
  license : String
deriving DecidableEq, Repr

/-- `ImageContentPermissions.__post_init__` folded into a checked
constructor: the license must validate as an SPDX expression, and a truthy
(non-`None`, non-empty) credits string is passed through the sanitizer.
Every Python construction of the dataclass — including `schema().load` —
runs this. -/
def ImageContentPermissions.make (ctx : ExternalCtx) (copyright : String)
    (credits : Option String) (license : String) :
    Except Err ImageContentPermissions :=
  if ctx.licenseOk license then
    .ok { copyright := copyright
          credits :=
            match credits with
            | some c => if c ≠ "" then some (ctx.sanitize c) else some c
            | none => none
          license := license }
  else
    .error (.licenseError "Invalid SPDX license")

structure ImageDisplayInfo where
  wwt : ImageWwt
  storage : ImageStorage
deriving DecidableEq, Repr

structure ImageInfo where
  id : String
  handle_id : String
  handle : HandleInfo
  creation_date : String
  wwt : ImageWwt
  permissions : ImageContentPermissions
  storage : ImageStorage
  note : String
deriving DecidableEq, Repr

structure ImageUpdate where
  note : Option String
  permissions : Option ImageContentPermissions
deriving DecidableEq, Repr

structure ImageApiPermissions where
  id : String
  edit : Bool
deriving DecidableEq, Repr

structure ScenePlace where
  ra_rad : Rat
  dec_rad : Rat
  roll_rad : Rat
  roi_height_deg : Rat
  roi_aspect_ratio : Rat
deriving DecidableEq, Repr

structure SceneImageLayer where
  image_id : String
  opacity : Rat
deriving DecidableEq, Repr

structure SceneContent where
  image_layers : Option (List SceneImageLayer)
deriving DecidableEq, Repr

structure SceneImageLayerHydrated where
  image : ImageDisplayInfo
  opacity : Rat
deriving DecidableEq, Repr

structure SceneContentHydrated where
  background : Option ImageDisplayInfo
  image_layers : Option (List SceneImageLayerHydrated)
deriving DecidableEq, Repr

structure ScenePreviews where
  video : Option String
  thumbnail : Option String
deriving DecidableEq, Repr

structure SceneHydrated where
  id : String
  handle_id : String
  handle : HandleInfo
  creation_date : String
  likes : Int
  place : ScenePlace
  content : SceneContentHydrated
  text : String
  previews : ScenePreviews
deriving DecidableEq, Repr

/-- `SceneInfo`; its Python field is literally named `_id`. -/
structure SceneInfo where
  _id : String
  creation_date : String
  impressions : Int
  likes : Int
deriving DecidableEq, Repr

structure ScenePermissions where
  id : String
  edit : Bool
deriving DecidableEq, Repr

structure SceneUpdate where
  outgoing_url : Option String
  place : Option ScenePlace
  text : Option String
deriving DecidableEq, Repr

/-! ## Request/response shapes of `handles.py` and `__init__.py` -/

structure AddImageRequest where
  wwt : ImageWwt
  storage : ImageStorage
  note : String
deriving DecidableEq, Repr

structure AddImageResponse where
  id : String
  rel_url : String
deriving DecidableEq, Repr

structure AddSceneRequest where
  place : ScenePlace
  content : SceneContent
  outgoing_url : Option String
  text : String
deriving DecidableEq, Repr

structure AddSceneResponse where
  id : String
  rel_url : String
deriving DecidableEq, Repr

structure SceneInfoResponse where
  total_count : Int
  results : List SceneInfo
deriving DecidableEq, Repr

/-- Modelled from the spec: `TimelineResponse` is imported by `handles.py`
from the package root but its definition is missing from the sources here;
per the specification, the timeline endpoint's decoded payload is the list
of `SceneHydrated` items that `get_timeline` returns via `resp.results`. -/
structure TimelineResponse where
  results : List SceneHydrated
deriving DecidableEq, Repr

/-! ## The image adapter (`HandleClient.add_image_from_set`) -/

/-- `wwt_data_formats.enums.DataSetType` (external collaborator): only the
`SKY` distinction matters to the adapter. -/
inductive DataSetType where
  | earth
  | planet
  | sky
  | panorama
deriving DecidableEq, Repr

/-- The slice of `wwt_data_formats.imageset.ImageSet` (external
collaborator) that `add_image_from_set` reads.  `projection` stands for
`imageset.projection.value`, the enum's wire string; `quad_tree_map` is
optional, which is why the adapter applies `or ""`. -/
structure ImageSet where
  data_set_type : DataSetType
  base_tile_level : Int
  base_degrees_per_tile : Rat
  bottoms_up : Bool
  center_x : Rat
  center_y : Rat
  file_type : String
  offset_x : Rat
  offset_y : Rat
  projection : String
  quad_tree_map : Option String
  rotation_deg : Rat
  tile_levels : Int
  width_factor : Int
  thumbnail_url : String
  url : String
  name : String
deriving DecidableEq, Repr

/-- `HandleClient.add_image_from_set` up to its network call: the two
validation guards, then the `AddImageRequest` that would be posted by
`add_image`.  `imageset.quad_tree_map or ""` maps both `None` and `""` to
`""`. -/
def add_image_from_set (imageset : ImageSet) : Except Err AddImageRequest :=
  if imageset.data_set_type ≠ .sky then
    .error (.validationError "Constellations imagesets must be of Sky type")
  else if imageset.base_tile_level ≠ 0 then
    .error (.validationError "Constellations imagesets must have base tile levels of 0")
  else
    .ok { wwt := { base_degrees_per_tile := imageset.base_degrees_per_tile
                   bottoms_up := imageset.bottoms_up
                   center_x := imageset.center_x
                   center_y := imageset.center_y
                   file_type := imageset.file_type
                   offset_x := imageset.offset_x
                   offset_y := imageset.offset_y
                   projection := imageset.projection
                   quad_tree_map := imageset.quad_tree_map.getD ""
                   rotation := imageset.rotation_deg
                   tile_levels := imageset.tile_levels
                   width_factor := imageset.width_factor
                   thumbnail_url := imageset.thumbnail_url }
          storage := { legacy_url_template := some imageset.url }
          note := imageset.name }

/-- A concrete sky-type, level-0 imageset whose `quad_tree_map` is absent
(`None`). -/
def isetNoQtm : ImageSet :=
  { data_set_type := .sky
    base_tile_level := 0
    base_degrees_per_tile := 1
    bottoms_up := false
    center_x := 10
    center_y := 20
    file_type := ".png"
    offset_x := 0
    offset_y := 0
    projection := "Tan"
    quad_tree_map := none
    rotation_deg := 0
    tile_levels := 5
    width_factor := 2
    thumbnail_url := "http://example.com/thumb.jpg"
    url := "http://example.com/tiles"
    name := "example image" }

/-! ## The scene adapter (`HandleClient.add_scene_from_place`) -/

/-- `math.pi` as an exact rational: the value of the IEEE-754 double that
Python's `math.pi` denotes.  (These constants are only carried around; no
theorem compares them, since `add_scene_from_place` fails before its
numbers are ever used.) -/
def mathPi : Rat := 884279719003555 / 281474976710656

/-- `H2R = math.pi / 12` (hours → radians). -/
def H2R : Rat := mathPi / 12

/-- `D2R = math.pi / 180` (degrees → radians). -/
def D2R : Rat := mathPi / 180

/-- The slice of a `wwt_data_formats` imageset reference that
`add_scene_from_place` reads from a `Place`: only its `url`. -/
structure PlaceImageSet where
  url : String
deriving DecidableEq, Repr

/-- The slice of `wwt_data_formats.place.Place` (external collaborator)
that `add_scene_from_place` reads. -/
structure Place where
  background_image_set : Option PlaceImageSet
  image_set : Option PlaceImageSet
  foreground_image_set : Option PlaceImageSet
  ra_hr : Rat
  dec_deg : Rat
  rotation_deg : Rat
  zoom_level : Rat
  name : String
deriving DecidableEq, Repr

/-- The field names of the `ScenePlace` dataclass in `data.py` — the
keyword arguments its generated `__init__` accepts, none of which has a
default. -/
def ScenePlace.fieldNames : List String :=
  ["ra_rad", "dec_rad", "roll_rad", "roi_height_deg", "roi_aspect_ratio"]

/-- Calling the generated `ScenePlace.__init__` with keyword arguments, as
`add_scene_from_place` does: a keyword that is not a field raises
`TypeError` (`unexpected keyword argument`); a missing required field also
raises `TypeError`. -/
def ScenePlace.from_kwargs (kw : List (String × Rat)) : Except Err ScenePlace :=
  match kw.find? (fun p => !(ScenePlace.fieldNames.contains p.1)) with
  | some p => .error (.typeError ("unexpected keyword argument " ++ p.1))
  | none =>
      match kw.lookup "ra_rad", kw.lookup "dec_rad", kw.lookup "roll_rad",
          kw.lookup "roi_height_deg", kw.lookup "roi_aspect_ratio" with
      | some a, some b, some c, some d, some e => .ok ⟨a, b, c, d, e⟩
      | _, _, _, _, _ => .error (.typeError "missing required positional argument")

/-- The lookup loop of `add_scene_from_place`: for each non-absent imageset
reference — background, main, foreground, in that order — resolve the
legacy URL through `find_images_by_wwt_url` (a network call, here a
function argument); an empty result raises the `LookupError`; the first
hit's id becomes an image layer with opacity `1.0`. -/
def buildImageLayers (find_images_by_wwt_url : String → List ImageSummary) :
    List (Option PlaceImageSet) → Except Err (List SceneImageLayer)
  | [] => .ok []
  | none :: rest => buildImageLayers find_images_by_wwt_url rest
  | some iset :: rest =>
      match find_images_by_wwt_url iset.url with
      | [] => .error (.lookupError
          ("unable to find Constellations record for image URL " ++ iset.url))
      | hit :: _ =>
          match buildImageLayers find_images_by_wwt_url rest with
          | .ok layers => .ok ({ image_id := hit.id, opacity := 1 } :: layers)
          | .error e => .error e

/-- `HandleClient.add_scene_from_place` up to its network call: build the
image layers, then construct the `ScenePlace` with the exact keyword
arguments the source passes — `ra_rad`, `dec_rad`, `zoom_deg`, `roll_rad` —
and finally the `AddSceneRequest` that `add_scene` would post. -/
def add_scene_from_place (find_images_by_wwt_url : String → List ImageSummary)
    (place : Place) : Except Err AddSceneRequest :=
  match buildImageLayers find_images_by_wwt_url
      [place.background_image_set, place.image_set, place.foreground_image_set] with
  | .error e => .error e
  | .ok image_layers =>
      match ScenePlace.from_kwargs
          [("ra_rad", place.ra_hr * H2R),
           ("dec_rad", place.dec_deg * D2R),
           ("zoom_deg", place.zoom_level),
           ("roll_rad", place.rotation_deg * D2R)] with
      | .error e => .error e
      | .ok api_place =>
          .ok { place := api_place
                content := { image_layers := some image_layers }
                outgoing_url := none
                text := place.name }

/-- A concrete `Place` with no imageset references, `ra_hr = 12`,
`dec_deg = 45`, `rotation_deg = 0`. -/
def placeNoRefs : Place :=
  { background_image_set := none
    image_set := none
    foreground_image_set := none
    ra_hr := 12
    dec_deg := 45
    rotation_deg := 0
    zoom_level := 1
    name := "Test Place" }

/-- `placeNoRefs` with a background imageset reference. -/
def placeWithBg : Place :=
  { placeNoRefs with background_image_set := some ⟨"http://example.com/tiles"⟩ }

/-! ## Wire JSON and per-type marshaling (`dataclasses_json`)

`to_dict` encodes a model value to wire JSON (field order = declaration
order, wire key = field name except where `config(field_name=…)` renames
it); `load` decodes, failing (`none`, the spec's SchemaError) on a missing
or mistyped required field.  `Optional` fields accept `null` (and a missing
key) as the absent value. -/

/-- A wire JSON value. -/
inductive Json where
  | null : Json
  | bool : Bool → Json
  | int : Int → Json
  | num : Rat → Json
  | str : String → Json
  | arr : List Json → Json
  | obj : List (String × Json) → Json

/-- Key lookup in a JSON object (Python dicts have unique keys). -/
def jGet : Json → String → Option Json
  | .obj entries, k => entries.lookup k
  | _, _ => none

/-- Encode an optional string (`None` ↦ `null`). -/
def jOptStr : Option String → Json
  | none => .null
  | some s => .str s

/-- Decode a required string field. -/
def decStr : Option Json → Option String
  | some (.str s) => some s
  | _ => none

/-- Decode a required boolean field. -/
def decBool : Option Json → Option Bool
  | some (.bool b) => some b
  | _ => none

/-- Decode a required integer field. -/
def decInt : Option Json → Option Int
  | some (.int n) => some n
  | _ => none

/-- Decode a required float field. -/
def decNum : Option Json → Option Rat
  | some (.num q) => some q
  | _ => none

/-- Decode an optional string field: `null` or a missing key is the absent
value. -/
def decOptStr : Option Json → Option (Option String)
  | some (.str s) => some (some s)
  | some .null => some none
  | none => some none
  | _ => none

/-- Decode a required nested field with the given nested decoder. -/
def decNested {α : Type} (load : Json → Option α) : Option Json → Option α
  | some j => load j
  | none => none

/-- Decode an optional nested field. -/
def decOptNested {α : Type} (load : Json → Option α) : Option Json → Option (Option α)
  | some .null => some none
  | none => some none
  | some j => (load j).map some

/-- Decode every element of a JSON array (marshmallow decodes item by
item, failing if any item fails). -/
def decodeList {α : Type} (load : Json → Option α) : List Json → Option (List α)
  | [] => some []
  | j :: rest => do
      let x ← load j
      let xs ← decodeList load rest
      pure (x :: xs)

/-- Decode an optional list-of-nested field. -/
def decOptList {α : Type} (load : Json → Option α) : Option Json → Option (Option (List α))
  | some .null => some none
  | none => some none
  | some (.arr elems) => (decodeList load elems).map some
  | _ => none

def HandleInfo.to_dict (x : HandleInfo) : Json :=
  .obj [("handle", .str x.handle), ("display_name", .str x.display_name)]

def HandleInfo.load (j : Json) : Option HandleInfo := do
  let handle ← decStr (jGet j "handle")
  let display_name ← decStr (jGet j "display_name")
  pure { handle, display_name }

def HandlePermissions.to_dict (x : HandlePermissions) : Json :=
  .obj [("handle", .str x.handle), ("view_dashboard", .bool x.view_dashboard)]

def HandlePermissions.load (j : Json) : Option HandlePermissions := do
  let handle ← decStr (jGet j "handle")
  let view_dashboard ← decBool (jGet j "view_dashboard")
  pure { handle, view_dashboard }

def HandleUpdate.to_dict (x : HandleUpdate) : Json :=
  .obj [("display_name", jOptStr x.display_name)]

def HandleUpdate.load (j : Json) : Option HandleUpdate := do
  let display_name ← decOptStr (jGet j "display_name")
  pure { display_name }

def HandleImageStats.to_dict (x : HandleImageStats) : Json :=
  .obj [("count", .int x.count)]

def HandleImageStats.load (j : Json) : Option HandleImageStats := do
  let count ← decInt (jGet j "count")
  pure { count }

def HandleSceneStats.to_dict (x : HandleSceneStats) : Json :=
  .obj [("count", .int x.count), ("impressions", .int x.impressions),
    ("likes", .int x.likes)]

def HandleSceneStats.load (j : Json) : Option HandleSceneStats := do
  let count ← decInt (jGet j "count")
  let impressions ← decInt (jGet j "impressions")
  let likes ← decInt (jGet j "likes")
  pure { count, impressions, likes }

def HandleStats.to_dict (x : HandleStats) : Json :=
  .obj [("handle", .str x.handle), ("images", x.images.to_dict),
    ("scenes", x.scenes.to_dict)]

def HandleStats.load (j : Json) : Option HandleStats := do
  let handle ← decStr (jGet j "handle")
  let images ← decNested HandleImageStats.load (jGet j "images")
  let scenes ← decNested HandleSceneStats.load (jGet j "scenes")
  pure { handle, images, scenes }

def ImageWwt.to_dict (x : ImageWwt) : Json :=
  .obj [("base_degrees_per_tile", .num x.base_degrees_per_tile),
    ("bottoms_up", .bool x.bottoms_up),
    ("center_x", .num x.center_x),
    ("center_y", .num x.center_y),
    ("file_type", .str x.file_type),
    ("offset_x", .num x.offset_x),
    ("offset_y", .num x.offset_y),
    ("projection", .str x.projection),
    ("quad_tree_map", .str x.quad_tree_map),
    ("rotation", .num x.rotation),
    ("tile_levels", .int x.tile_levels),
    ("width_factor", .int x.width_factor),
    ("thumbnail_url", .str x.thumbnail_url)]

def ImageWwt.load (j : Json) : Option ImageWwt := do
  let base_degrees_per_tile ← decNum (jGet j "base_degrees_per_tile")
  let bottoms_up ← decBool (jGet j "bottoms_up")
  let center_x ← decNum (jGet j "center_x")
  let center_y ← decNum (jGet j "center_y")
  let file_type ← decStr (jGet j "file_type")
  let offset_x ← decNum (jGet j "offset_x")
  let offset_y ← decNum (jGet j "offset_y")
  let projection ← decStr (jGet j "projection")
  let quad_tree_map ← decStr (jGet j "quad_tree_map")
  let rotation ← decNum (jGet j "rotation")
  let tile_levels ← decInt (jGet j "tile_levels")
  let width_factor ← decInt (jGet j "width_factor")
  let thumbnail_url ← decStr (jGet j "thumbnail_url")
  pure (⟨base_degrees_per_tile, bottoms_up, center_x, center_y, file_type,
    offset_x, offset_y, projection, quad_tree_map, rotation, tile_levels,
    width_factor, thumbnail_url⟩ : ImageWwt)

def ImageStorage.to_dict (x : ImageStorage) : Json :=
  .obj [("legacy_url_template", jOptStr x.legacy_url_template)]

def ImageStorage.load (j : Json) : Option ImageStorage := do
  let legacy_url_template ← decOptStr (jGet j "legacy_url_template")
  pure { legacy_url_template }

/-- `ImageSummary`'s `id` field is serialized under the wire name `"_id"`
(`config(field_name="_id")`). -/
def ImageSummary.to_dict (x : ImageSummary) : Json :=
  .obj [("_id", .str x.id), ("handle_id", .str x.handle_id),
    ("creation_date", .str x.creation_date), ("note", .str x.note),
    ("storage", x.storage.to_dict)]

def ImageSummary.load (j : Json) : Option ImageSummary := do
  let id ← decStr (jGet j "_id")
  let handle_id ← decStr (jGet j "handle_id")
  let creation_date ← decStr (jGet j "creation_date")
  let note ← decStr (jGet j "note")
  let storage ← decNested ImageStorage.load (jGet j "storage")
  pure { id, handle_id, creation_date, note, storage }

def ImageContentPermissions.to_dict (x : ImageContentPermissions) : Json :=
  .obj [("copyright", .str x.copyright), ("credits", jOptStr x.credits),
    ("license", .str x.license)]

/-- Decoding `ImageContentPermissions` re-runs the dataclass constructor
and hence `__post_init__`: license validation and credits sanitization. -/
def ImageContentPermissions.load (ctx : ExternalCtx) (j : Json) :
    Option ImageContentPermissions := do
  let copyright ← decStr (jGet j "copyright")
  let credits ← decOptStr (jGet j "credits")
  let license ← decStr (jGet j "license")
  match ImageContentPermissions.make ctx copyright credits license with
  | .ok x => some x
  | .error _ => none

/-- A value of `ImageContentPermissions` as the constructor actually
produces it: the license validates, and any non-empty credits string is a
fixed point of the sanitizer (the constructor sanitized it already). -/
def ImageContentPermissions.valid (ctx : ExternalCtx)
    (x : ImageContentPermissions) : Prop :=
  ctx.licenseOk x.license = true ∧
  ∀ c, x.credits = some c → c ≠ "" → ctx.sanitize c = c

def ImageDisplayInfo.to_dict (x : ImageDisplayInfo) : Json :=
  .obj [("wwt", x.wwt.to_dict), ("storage", x.storage.to_dict)]

def ImageDisplayInfo.load (j : Json) : Option ImageDisplayInfo := do
  let wwt ← decNested ImageWwt.load (jGet j "wwt")
  let storage ← decNested ImageStorage.load (jGet j "storage")
  pure { wwt, storage }

def ImageInfo.to_dict (x : ImageInfo) : Json :=
  .obj [("id", .str x.id), ("handle_id", .str x.handle_id),
    ("handle", x.handle.to_dict), ("creation_date", .str x.creation_date),
    ("wwt", x.wwt.to_dict), ("permissions", x.permissions.to_dict),
    ("storage", x.storage.to_dict), ("note", .str x.note)]

def ImageInfo.load (ctx : ExternalCtx) (j : Json) : Option ImageInfo := do
  let id ← decStr (jGet j "id")
  let handle_id ← decStr (jGet j "handle_id")
  let handle ← decNested HandleInfo.load (jGet j "handle")
  let creation_date ← decStr (jGet j "creation_date")
  let wwt ← decNested ImageWwt.load (jGet j "wwt")
  let permissions ← decNested (ImageContentPermissions.load ctx) (jGet j "permissions")
  let storage ← decNested ImageStorage.load (jGet j "storage")
  let note ← decStr (jGet j "note")
  pure { id, handle_id, handle, creation_date, wwt, permissions, storage, note }

def ImageUpdate.to_dict (x : ImageUpdate) : Json :=
  .obj [("note", jOptStr x.note),
    ("permissions", match x.permissions with
      | none => .null
      | some p => p.to_dict)]

def ImageUpdate.load (ctx : ExternalCtx) (j : Json) : Option ImageUpdate := do
  let note ← decOptStr (jGet j "note")
  let permissions ← decOptNested (ImageContentPermissions.load ctx) (jGet j "permissions")
  pure { note, permissions }

def ImageApiPermissions.to_dict (x : ImageApiPermissions) : Json :=
  .obj [("id", .str x.id), ("edit", .bool x.edit)]

def ImageApiPermissions.load (j : Json) : Option ImageApiPermissions := do
  let id ← decStr (jGet j "id")
  let edit ← decBool (jGet j "edit")
  pure { id, edit }

def ScenePlace.to_dict (x : ScenePlace) : Json :=
  .obj [("ra_rad", .num x.ra_rad), ("dec_rad", .num x.dec_rad),
    ("roll_rad", .num x.roll_rad), ("roi_height_deg", .num x.roi_height_deg),
    ("roi_aspect_ratio", .num x.roi_aspect_ratio)]

def ScenePlace.load (j : Json) : Option ScenePlace := do
  let ra_rad ← decNum (jGet j "ra_rad")
  let dec_rad ← decNum (jGet j "dec_rad")
  let roll_rad ← decNum (jGet j "roll_rad")
  let roi_height_deg ← decNum (jGet j "roi_height_deg")
  let roi_aspect_ratio ← decNum (jGet j "roi_aspect_ratio")
  pure { ra_rad, dec_rad, roll_rad, roi_height_deg, roi_aspect_ratio }

def SceneImageLayer.to_dict (x : SceneImageLayer) : Json :=
  .obj [("image_id", .str x.image_id), ("opacity", .num x.opacity)]

def SceneImageLayer.load (j : Json) : Option SceneImageLayer := do
  let image_id ← decStr (jGet j "image_id")
  let opacity ← decNum (jGet j "opacity")
  pure { image_id, opacity }

def SceneContent.to_dict (x : SceneContent) : Json :=
  .obj [("image_layers", match x.image_layers with
    | none => .null
    | some layers => .arr (layers.map SceneImageLayer.to_dict))]

def SceneContent.load (j : Json) : Option SceneContent := do
  let image_layers ← decOptList SceneImageLayer.load (jGet j "image_layers")
  pure { image_layers }

def SceneImageLayerHydrated.to_dict (x : SceneImageLayerHydrated) : Json :=
  .obj [("image", x.image.to_dict), ("opacity", .num x.opacity)]

def SceneImageLayerHydrated.load (j : Json) : Option SceneImageLayerHydrated := do
  let image ← decNested ImageDisplayInfo.load (jGet j "image")
  let opacity ← decNum (jGet j "opacity")
  pure { image, opacity }

def SceneContentHydrated.to_dict (x : SceneContentHydrated) : Json :=
  .obj [("background", match x.background with
      | none => .null
      | some b => b.to_dict),
    ("image_layers", match x.image_layers with
      | none => .null
      | some layers => .arr (layers.map SceneImageLayerHydrated.to_dict))]

def SceneContentHydrated.load (j : Json) : Option SceneContentHydrated := do
  let background ← decOptNested ImageDisplayInfo.load (jGet j "background")
  let image_layers ← decOptList SceneImageLayerHydrated.load (jGet j "image_layers")
  pure { background, image_layers }

def ScenePreviews.to_dict (x : ScenePreviews) : Json :=
  .obj [("video", jOptStr x.video), ("thumbnail", jOptStr x.thumbnail)]

def ScenePreviews.load (j : Json) : Option ScenePreviews := do
  let video ← decOptStr (jGet j "video")
  let thumbnail ← decOptStr (jGet j "thumbnail")
  pure { video, thumbnail }

def SceneHydrated.to_dict (x : SceneHydrated) : Json :=
  .obj [("id", .str x.id), ("handle_id", .str x.handle_id),
    ("handle", x.handle.to_dict), ("creation_date", .str x.creation_date),
    ("likes", .int x.likes), ("place", x.place.to_dict),
    ("content", x.content.to_dict), ("text", .str x.text),
    ("previews", x.previews.to_dict)]

def SceneHydrated.load (j : Json) : Option SceneHydrated := do
  let id ← decStr (jGet j "id")
  let handle_id ← decStr (jGet j "handle_id")
  let handle ← decNested HandleInfo.load (jGet j "handle")
  let creation_date ← decStr (jGet j "creation_date")
  let likes ← decInt (jGet j "likes")
  let place ← decNested ScenePlace.load (jGet j "place")
  let content ← decNested SceneContentHydrated.load (jGet j "content")
  let text ← decStr (jGet j "text")
  let previews ← decNested ScenePreviews.load (jGet j "previews")
  pure { id, handle_id, handle, creation_date, likes, place, content, text, previews }

def SceneInfo.to_dict (x : SceneInfo) : Json :=
  .obj [("_id", .str x._id), ("creation_date", .str x.creation_date),
    ("impressions", .int x.impressions), ("likes", .int x.likes)]

def SceneInfo.load (j : Json) : Option SceneInfo := do
  let i ← decStr (jGet j "_id")
  let creation_date ← decStr (jGet j "creation_date")
  let impressions ← decInt (jGet j "impressions")
  let likes ← decInt (jGet j "likes")
  pure { _id := i, creation_date, impressions, likes }

def ScenePermissions.to_dict (x : ScenePermissions) : Json :=
  .obj [("id", .str x.id), ("edit", .bool x.edit)]

def ScenePermissions.load (j : Json) : Option ScenePermissions := do
  let id ← decStr (jGet j "id")
  let edit ← decBool (jGet j "edit")
  pure { id, edit }

def SceneUpdate.to_dict (x : SceneUpdate) : Json :=
  .obj [("outgoing_url", jOptStr x.outgoing_url),
    ("place", match x.place with
      | none => .null
      | some p => p.to_dict),
    ("text", jOptStr x.text)]

def SceneUpdate.load (j : Json) : Option SceneUpdate := do
  let outgoing_url ← decOptStr (jGet j "outgoing_url")
  let place ← decOptNested ScenePlace.load (jGet j "place")
  let text ← decOptStr (jGet j "text")
  pure { outgoing_url, place, text }

def AddImageResponse.load (j : Json) : Option AddImageResponse := do
  let id ← decStr (jGet j "id")
  let rel_url ← decStr (jGet j "rel_url")
  pure { id, rel_url }

def AddSceneResponse.load (j : Json) : Option AddSceneResponse := do
  let id ← decStr (jGet j "id")
  let rel_url ← decStr (jGet j "rel_url")
  pure { id, rel_url }

def SceneInfoResponse.load (j : Json) : Option SceneInfoResponse := do
  let total_count ← decInt (jGet j "total_count")
  let results ← match jGet j "results" with
    | some (.arr elems) => decodeList SceneInfo.load elems
    | _ => none
  pure { total_count, results }

def TimelineResponse.load (j : Json) : Option TimelineResponse := do
  let results ← match jGet j "results" with
    | some (.arr elems) => decodeList SceneHydrated.load elems
    | _ => none
  pure { results }

/-! ## Response-envelope handling: `resp.pop("error")` in every
`HandleClient` operation -/

/-- Python `resp.pop("error")` on the decoded JSON object: removes the key
and returns the remaining mapping; raises `KeyError` when the key is
absent, even though the HTTP status was a success. -/
def popError (entries : List (String × Json)) : Except Err (List (String × Json)) :=
  if (entries.lookup "error").isSome then
    .ok (entries.filter (fun kv => kv.1 != "error"))
  else
    .error (.keyError "error")

/-- Decode the remaining payload with a model loader (`schema().load`); a
failure is the specification's SchemaError. -/
def loadModel {α : Type} (load : Json → Option α)
    (entries : List (String × Json)) : Except Err α :=
  match load (.obj entries) with
  | some x => .ok x
  | none => .error (.schemaError "response does not match the model schema")

/-- `HandleClient.get` from the decoded response JSON onward. -/
def handle_get_response (entries : List (String × Json)) : Except Err HandleInfo :=
  (popError entries).bind (loadModel HandleInfo.load)

/-- `HandleClient.permissions` from the decoded response JSON onward. -/
def handle_permissions_response (entries : List (String × Json)) :
    Except Err HandlePermissions :=
  (popError entries).bind (loadModel HandlePermissions.load)

/-- `HandleClient.stats` from the decoded response JSON onward. -/
def handle_stats_response (entries : List (String × Json)) : Except Err HandleStats :=
  (popError entries).bind (loadModel HandleStats.load)

/-- `HandleClient.scene_info` from the decoded response JSON onward (the
`total_count` field is discarded, only `results` is returned). -/
def handle_scene_info_response (entries : List (String × Json)) :
    Except Err (List SceneInfo) :=
  (popError entries).bind (fun e => (loadModel SceneInfoResponse.load e).map (·.results))

/-- `HandleClient.update` from the decoded response JSON onward (the
response mapping itself is returned after the pop). -/
def handle_update_response (entries : List (String × Json)) :
    Except Err (List (String × Json)) :=
  popError entries

/-- `HandleClient.add_image` from the decoded response JSON onward. -/
def handle_add_image_response (entries : List (String × Json)) : Except Err String :=
  (popError entries).bind (fun e => (loadModel AddImageResponse.load e).map (·.id))

/-- `HandleClient.add_scene` from the decoded response JSON onward. -/
def handle_add_scene_response (entries : List (String × Json)) : Except Err String :=
  (popError entries).bind (fun e => (loadModel AddSceneResponse.load e).map (·.id))

/-- `HandleClient.get_timeline` from the decoded response JSON onward. -/
def handle_get_timeline_response (entries : List (String × Json)) :
    Except Err (List SceneHydrated) :=
  (popError entries).bind (fun e => (loadModel TimelineResponse.load e).map (·.results))

/-! ## Claim theorems: configuration (C1, C8) -/

/-- Boolean/propositional bridge for `pyEndsWith`. -/
theorem pyEndsWith_true_iff {s t : String} : pyEndsWith s t = true ↔ t.data <:+ s.data := by
  simp [pyEndsWith]

/-- C1: with `NUXT_PUBLIC_API_URL` set and neither Keycloak variable set,
`ClientConfig.new_default` derives `id_provider_url`
`"http://localhost:8080/realms/constellations"` when the API URL contains
`"localhost"`, `"https://wwtelescope.dev/auth/realms/constellations"` when it
contains `"wwtelescope.dev"` (and not `"localhost"`), and raises a
`ConfigError` when it contains neither; with `NUXT_PUBLIC_API_URL` unset it
raises a `ConfigError`. -/
theorem C1_new_default_derivation (env : Env)
    (hk1 : env.nuxt_public_keycloak_url = none)
    (hk2 : env.keycloak_url = none) :
    (env.nuxt_public_api_url = none →
      ClientConfig.new_default env = .error (.configError
        "until WWT Constellations is released, you must set the environment variable NUXT_PUBLIC_API_URL")) ∧
    ∀ a, env.nuxt_public_api_url = some a →
      (pyContains a "localhost" = true →
        ∃ cfg, ClientConfig.new_default env = .ok cfg ∧
          cfg.id_provider_url = "http://localhost:8080/realms/constellations") ∧
      (pyContains a "localhost" = false → pyContains a "wwtelescope.dev" = true →
        ∃ cfg, ClientConfig.new_default env = .ok cfg ∧
          cfg.id_provider_url = "https://wwtelescope.dev/auth/realms/constellations") ∧
      (pyContains a "localhost" = false → pyContains a "wwtelescope.dev" = false →
        ClientConfig.new_default env = .error (.configError
          "unable to infer the WWT Constellations Keycloak URL; set the environment variable NUXT_PUBLIC_KEYCLOAK_URL")) := by
  constructor
  · intro hnone
    simp only [ClientConfig.new_default, hnone]
  · intro a ha
    refine ⟨?_, ?_, ?_⟩
    · intro hloc
      refine ⟨⟨"http://localhost:8080/realms/constellations",
        env.wwt_api_client_id.getD "cli-tool",
        if pyEndsWith a "/" then pyDropLast a else a⟩, ?_, rfl⟩
      simp only [ClientConfig.new_default, ha, hk1, hk2, hloc, if_true]
      rfl
    · intro hloc hdev
      refine ⟨⟨"https://wwtelescope.dev/auth/realms/constellations",
        env.wwt_api_client_id.getD "cli-tool",
        if pyEndsWith a "/" then pyDropLast a else a⟩, ?_, rfl⟩
      simp only [ClientConfig.new_default, ha, hk1, hk2, hloc, hdev, if_true, if_false,
        Bool.false_eq_true]
      rfl
    · intro hloc hdev
      simp only [ClientConfig.new_default, ha, hk1, hk2, hloc, hdev, if_false,
        Bool.false_eq_true]

/-- C1 witness: concrete environments exercising every hypothesis of
`C1_new_default_derivation`. -/
theorem C1_new_default_derivation_witness :
    ∃ cfg, ClientConfig.new_default ⟨some "http://localhost:7000", none, none, none⟩ =
        .ok cfg ∧ cfg.id_provider_url = "http://localhost:8080/realms/constellations" :=
  ((C1_new_default_derivation ⟨some "http://localhost:7000", none, none, none⟩ rfl rfl).2
    "http://localhost:7000" rfl).1 (by decide)

/-- C8 counterexample: `ClientConfig.new_dev` produces an `api_url` that
*does* end in a path separator, refuting the claimed invariant as stated. -/
theorem C8_counterexample_new_dev_api_url_slash :
    pyEndsWith ClientConfig.new_dev.api_url "/" = true := by
  decide

/-- C8 (amended): `new_default`'s `api_url` ends in `"/"` only when the
supplied API URL ends in `"//"` (exactly one trailing slash is stripped);
the `id_provider_url` of every constructed configuration ends in
`"/realms/constellations"`; `new_dev`'s `api_url` is the literal
`"https://api.wwtelescope.dev/"`, which ends in `"/"`.  (The configuration
record is pure data here; the library never mutates it after
construction.) -/
theorem C8_amended_config_invariants :
    (∀ env cfg, ClientConfig.new_default env = .ok cfg →
      (pyEndsWith cfg.api_url "/" = true →
        ∃ a, env.nuxt_public_api_url = some a ∧ pyEndsWith a "//" = true) ∧
      ∃ p, cfg.id_provider_url = p ++ "/realms/constellations") ∧
    (∃ p, ClientConfig.new_dev.id_provider_url = p ++ "/realms/constellations") ∧
    pyEndsWith ClientConfig.new_dev.api_url "/" = true := by
  refine ⟨?_, ⟨"https://wwtelescope.dev/auth", rfl⟩, by decide⟩
  intro env cfg h
  unfold ClientConfig.new_default at h
  simp only at h
  split at h
  · exact absurd h (by simp)
  next a ha =>
    split at h
    · exact absurd h (by simp)
    next ib hib =>
      rw [Except.ok.injEq] at h
      subst h
      constructor
      · intro hslash
        refine ⟨a, ha, ?_⟩
        simp only at hslash
        split at hslash
        next hc =>
          obtain ⟨t, ht⟩ := pyEndsWith_true_iff.mp hc
          have ht' : t ++ ['/'] = a.data := ht
          have hdl : (pyDropLast a).data = t := by
            simp only [pyDropLast, ← ht', List.dropLast_concat]
          obtain ⟨u, hu⟩ := pyEndsWith_true_iff.mp hslash
          have hu' : u ++ ['/'] = t := by rw [← hdl]; exact hu
          refine pyEndsWith_true_iff.mpr ⟨u, ?_⟩
          show u ++ ['/', '/'] = a.data
          rw [← ht', ← hu', List.append_assoc]
          rfl
        next hc =>
          exact absurd hslash (by simp [hc])
      · simp only
        split
        next hc =>
          obtain ⟨t, ht⟩ := pyEndsWith_true_iff.mp hc
          have ht' : t ++ ['/'] = ib.data := ht
          refine ⟨⟨t⟩, String.ext ?_⟩
          show ib.data ++ ("realms/constellations").data =
            t ++ ("/realms/constellations").data
          rw [← ht']
          show t ++ ['/'] ++ ("realms/constellations").data =
            t ++ ('/' :: ("realms/constellations").data)
          rw [List.append_assoc]
          rfl
        next hc =>
          refine ⟨ib, String.ext ?_⟩
          show (ib.data ++ ['/']) ++ ("realms/constellations").data =
            ib.data ++ ('/' :: ("realms/constellations").data)
          rw [List.append_assoc]
          rfl

/-- C8 witness: applying `C8_amended_config_invariants` at a concrete
environment, discharging the success hypothesis. -/
theorem C8_amended_config_invariants_witness :
    (pyEndsWith ("https://api.wwtelescope.dev" : String) "/" = true →
      ∃ a, (some "https://api.wwtelescope.dev/" : Option String) = some a ∧
        pyEndsWith a "//" = true) ∧
    ∃ p, ("https://wwtelescope.dev/auth/realms/constellations" : String) =
      p ++ "/realms/constellations" :=
  C8_amended_config_invariants.1 ⟨some "https://api.wwtelescope.dev/", none, none, none⟩
    ⟨"https://wwtelescope.dev/auth/realms/constellations", "cli-tool",
      "https://api.wwtelescope.dev"⟩ rfl

/-! ## Claim theorems: null-stripping (C2) -/

mutual
/-- After stripping, no `None`-bound key survives at any dictionary depth. -/
theorem stripNulls_noneFree : ∀ v : PyValue, (stripNulls v).noneFree = true
  | .pynone => rfl
  | .atom _ => rfl
  | .pylist _ => rfl
  | .pdict d => by
      simpa [stripNulls, PyValue.noneFree] using stripNullsDict_noneFree d

/-- Dict version of `stripNulls_noneFree`. -/
theorem stripNullsDict_noneFree : ∀ d : PyDict, (stripNullsDict d).noneFree = true
  | .nil => rfl
  | .cons k v rest => by
      cases v with
      | pynone => simpa [stripNullsDict] using stripNullsDict_noneFree rest
      | atom n =>
          simp [stripNullsDict, PyDict.noneFree, PyValue.isNone, PyValue.noneFree,
            stripNullsDict_noneFree rest]
      | pylist l =>
          simp [stripNullsDict, PyDict.noneFree, PyValue.isNone, PyValue.noneFree,
            stripNullsDict_noneFree rest]
      | pdict d2 =>
          simp [stripNullsDict, PyDict.noneFree, PyValue.isNone, PyValue.noneFree,
            stripNullsDict_noneFree rest, stripNullsDict_noneFree d2]
end

mutual
/-- Stripping twice equals stripping once. -/
theorem stripNulls_idem : ∀ v : PyValue, stripNulls (stripNulls v) = stripNulls v
  | .pynone => rfl
  | .atom _ => rfl
  | .pylist _ => rfl
  | .pdict d => by simp [stripNulls, stripNullsDict_idem d]

/-- Dict version of `stripNulls_idem`. -/
theorem stripNullsDict_idem : ∀ d : PyDict, stripNullsDict (stripNullsDict d) = stripNullsDict d
  | .nil => rfl
  | .cons k v rest => by
      cases v with
      | pynone => simpa [stripNullsDict] using stripNullsDict_idem rest
      | atom n => simp [stripNullsDict, stripNullsDict_idem rest]
      | pylist l => simp [stripNullsDict, stripNullsDict_idem rest]
      | pdict d2 => simp [stripNullsDict, stripNullsDict_idem rest, stripNullsDict_idem d2]
end

/-- C2: the null-stripping normalizer returns the (stripped) mapping itself:
after one application no key bound to `None` remains at any depth of
dictionary nesting; it leaves lists — and hence `None` values inside list
elements — completely untouched; and it is idempotent.  (In-place mutation
of the Python argument is outside a pure embedding; the returned mapping is
modelled.) -/
theorem C2_strip_nulls_normalizer (v : PyValue) :
    (stripNulls v).noneFree = true ∧
    stripNulls (stripNulls v) = stripNulls v ∧
    (∀ items : PyList, stripNulls (.pylist items) = .pylist items) ∧
    (∀ (k : String) (items : PyList) (rest : PyDict),
      stripNullsDict (.cons k (.pylist items) rest) =
        .cons k (.pylist items) (stripNullsDict rest)) ∧
    (∀ d : PyDict, stripNulls (.pdict d) = .pdict (stripNullsDict d)) :=
  ⟨stripNulls_noneFree v, stripNulls_idem v, fun _ => rfl,
    fun _ _ _ => by simp [stripNullsDict], fun _ => rfl⟩

/-! ## Claim theorems: ApiError on HTTP failure (C5) -/

/-- C5 counterexample: a `304 Not Modified` response has a non-2xx status,
yet `_send_and_check` returns it unchanged instead of raising — only
statuses in `[400, 600)` make `raise_for_status` raise. -/
theorem C5_counterexample_304_returned :
    send_and_check ⟨304, "Not Modified", "http://localhost:7000/handle/x", "cached"⟩ =
      .ok ⟨304, "Not Modified", "http://localhost:7000/handle/x", "cached"⟩ ∧
    ¬ (200 ≤ 304 ∧ 304 < 300) :=
  ⟨rfl, by decide⟩

/-- C5 (amended): for a response whose status is a 4xx/5xx error,
`_send_and_check` raises an `ApiError` whose message is the HTTP
status/reason message followed by `": "` and the literal raw body text (so
the body text is a verbatim suffix of the message); for every other status
— 2xx, but also 1xx/3xx — it returns the raw response unchanged. -/
theorem C5_amended_send_and_check (r : HttpResponse) :
    (400 ≤ r.status_code ∧ r.status_code < 600 →
      send_and_check r = .error (.apiError (httpErrorMessage r ++ ": " ++ r.text)) ∧
      ∃ p, httpErrorMessage r ++ ": " ++ r.text = p ++ r.text) ∧
    (r.status_code < 400 ∨ 600 ≤ r.status_code →
      send_and_check r = .ok r) := by
  constructor
  · intro h
    refine ⟨?_, ⟨httpErrorMessage r ++ ": ", ?_⟩⟩
    · simp [send_and_check, raise_for_status, h]
    · rw [String.append_assoc]
  · intro h
    have hno : ¬ (400 ≤ r.status_code ∧ r.status_code < 600) := by omega
    simp [send_and_check, raise_for_status, hno]

/-- C5 witness: a mocked `400` response with the specification's example
body `{"error":true,"detail":"bad request"}`; the body appears verbatim at
the end of the `ApiError` message.  Also exercises the success branch on a
`200`. -/
theorem C5_amended_send_and_check_witness :
    (send_and_check ⟨400, "Bad Request", "u", "\x7b\"error\":true,\"detail\":\"bad request\"\x7d"⟩ =
      .error (.apiError
        ("400 Client Error: Bad Request for url: u: \x7b\"error\":true,\"detail\":\"bad request\"\x7d")) ∧
      ∃ p, ("400 Client Error: Bad Request for url: u: \x7b\"error\":true,\"detail\":\"bad request\"\x7d" : String) =
        p ++ "\x7b\"error\":true,\"detail\":\"bad request\"\x7d") ∧
    send_and_check ⟨200, "OK", "u", "\x7b\"error\":false\x7d"⟩ =
      .ok ⟨200, "OK", "u", "\x7b\"error\":false\x7d"⟩ :=
  ⟨(C5_amended_send_and_check
      ⟨400, "Bad Request", "u", "\x7b\"error\":true,\"detail\":\"bad request\"\x7d"⟩).1 (by decide),
   (C5_amended_send_and_check ⟨200, "OK", "u", "\x7b\"error\":false\x7d"⟩).2 (by decide)⟩

/-! ## Claim theorems: pagination validation and coercion (C4, C10) -/

/-- C4: `scene_info` raises a `ValidationError` before issuing any network
call when `page_num` is negative or `page_size` is outside `[1, 100]`, and
proceeds (producing the request parameters) when `page_num ≥ 0` and
`1 ≤ page_size ≤ 100`; `get_timeline` likewise rejects a negative
`page_num` before any network call. -/
theorem C4_page_validation (pn ps : Int) :
    (pn < 0 ∨ ps < 1 ∨ 100 < ps →
      ∃ m, scene_info_params (.int pn) (.int ps) = .error (.validationError m)) ∧
    (0 ≤ pn → 1 ≤ ps → ps ≤ 100 →
      scene_info_params (.int pn) (.int ps) = .ok (pn, ps)) ∧
    (pn < 0 → ∃ m, get_timeline_params (.int pn) = .error (.validationError m)) ∧
    (0 ≤ pn → get_timeline_params (.int pn) = .ok pn) := by
  refine ⟨?_, ?_, ?_, ?_⟩
  · intro h
    by_cases h0 : 0 ≤ pn
    · have h1 : ¬ (1 ≤ ps ∧ ps ≤ 100) := by omega
      exact ⟨"invalid page_size argument", by simp [scene_info_params, pyToInt, h0, h1]⟩
    · exact ⟨"invalid page_num argument", by simp [scene_info_params, pyToInt, h0]⟩
  · intro h0 h1 h2
    simp [scene_info_params, pyToInt, h0, h1, h2]
  · intro h
    have h0 : ¬ (0 ≤ pn) := by omega
    exact ⟨"invalid page_num argument", by simp [get_timeline_params, pyToInt, h0]⟩
  · intro h0
    simp [get_timeline_params, pyToInt, h0]

/-- C4 witness: the specification's example calls — `(-1, 10)` and
`(0, 101)` rejected, `(0, 100)` accepted, `get_timeline(-1)` rejected. -/
theorem C4_page_validation_witness :
    (∃ m, scene_info_params (.int (-1)) (.int 10) = .error (.validationError m)) ∧
    (∃ m, scene_info_params (.int 0) (.int 101) = .error (.validationError m)) ∧
    scene_info_params (.int 0) (.int 100) = .ok (0, 100) ∧
    (∃ m, get_timeline_params (.int (-1)) = .error (.validationError m)) :=
  ⟨(C4_page_validation (-1) 10).1 (by decide),
   (C4_page_validation 0 101).1 (by decide),
   (C4_page_validation 0 100).2.1 (by decide) (by decide) (by decide),
   (C4_page_validation (-1) 10).2.2.1 (by decide)⟩

/-- C10: both pagination operations coerce their arguments through `int()`
before validating: any value convertible to a non-negative integer — such
as a decimal string or a float, which is truncated — is accepted, and the
converted integer is what gets sent; the same coercion applies to
`page_size`. -/
theorem C10_page_coercion (v : PyScalar) (n : Int)
    (hconv : pyToInt v = some n) (hn : 0 ≤ n) :
    scene_info_params v (.int 10) = .ok (n, 10) ∧
    get_timeline_params v = .ok n ∧
    (1 ≤ n → n ≤ 100 → scene_info_params (.int 0) v = .ok (0, n)) := by
  refine ⟨?_, ?_, ?_⟩
  · unfold scene_info_params
    rw [hconv]
    simp [pyToInt, hn]
  · unfold get_timeline_params
    rw [hconv]
    simp [hn]
  · intro h1 h2
    unfold scene_info_params
    rw [hconv]
    simp [pyToInt, h1, h2]

/-- C10 witness: the string `"3"` and the float `3.9` are both accepted and
sent as the integer `3`, for `page_num` and for `page_size`. -/
theorem C10_page_coercion_witness :
    scene_info_params (.str "3") (.int 10) = .ok (3, 10) ∧
    get_timeline_params (.float 3.9) = .ok 3 ∧
    scene_info_params (.int 0) (.str "3") = .ok (0, 3) :=
  ⟨(C10_page_coercion (.str "3") 3 (by decide) (by decide)).1,
   (C10_page_coercion (.float 3.9) 3
      (by show some (pyTrunc 3.9) = some 3; norm_num [pyTrunc]; decide) (by decide)).2.1,
   (C10_page_coercion (.str "3") 3 (by decide) (by decide)).2.2 (by decide) (by decide)⟩

/-! ## Claim theorems: image adapter (C7) -/

/-- C7 counterexample: for a sky-type, level-0 imageset whose
`quad_tree_map` is absent (`None`), the request does *not* carry the field
verbatim — `imageset.quad_tree_map or ""` turns the absent value into the
empty string. -/
theorem C7_counterexample_quad_tree_map :
    ∃ r, add_image_from_set isetNoQtm = .ok r ∧
      some r.wwt.quad_tree_map ≠ isetNoQtm.quad_tree_map :=
  ⟨_, rfl, by decide⟩

/-- C7 (amended): an imageset whose data-set type is not sky or whose base
tile level is non-zero is rejected with a `ValidationError` before any
network call; a sky-type, level-0 imageset yields a request copying the
tiling/geometry fields verbatim — except `quad_tree_map`, where an absent
value becomes `""` — and mapping the imageset's storage URL to the
legacy-template string. -/
theorem C7_amended_add_image_from_set (imageset : ImageSet) :
    (imageset.data_set_type ≠ .sky ∨ imageset.base_tile_level ≠ 0 →
      ∃ m, add_image_from_set imageset = .error (.validationError m)) ∧
    (imageset.data_set_type = .sky → imageset.base_tile_level = 0 →
      add_image_from_set imageset = .ok
        { wwt := { base_degrees_per_tile := imageset.base_degrees_per_tile
                   bottoms_up := imageset.bottoms_up
                   center_x := imageset.center_x
                   center_y := imageset.center_y
                   file_type := imageset.file_type
                   offset_x := imageset.offset_x
                   offset_y := imageset.offset_y
                   projection := imageset.projection
                   quad_tree_map := imageset.quad_tree_map.getD ""
                   rotation := imageset.rotation_deg
                   tile_levels := imageset.tile_levels
                   width_factor := imageset.width_factor
                   thumbnail_url := imageset.thumbnail_url }
          storage := { legacy_url_template := some imageset.url }
          note := imageset.name }) := by
  constructor
  · intro h
    rcases h with h | h
    · exact ⟨"Constellations imagesets must be of Sky type",
        by simp [add_image_from_set, h]⟩
    · by_cases hs : imageset.data_set_type = .sky
      · exact ⟨"Constellations imagesets must have base tile levels of 0",
          by simp [add_image_from_set, hs, h]⟩
      · exact ⟨"Constellations imagesets must be of Sky type",
          by simp [add_image_from_set, hs]⟩
  · intro hs h0
    simp [add_image_from_set, hs, h0]

/-- C7 witness: a non-sky imageset is rejected; a sky, level-0 imageset
(with `quad_tree_map` present) produces the expected request. -/
theorem C7_amended_add_image_from_set_witness :
    (∃ m, add_image_from_set { isetNoQtm with data_set_type := .planet } =
      .error (.validationError m)) ∧
    add_image_from_set { isetNoQtm with quad_tree_map := some "0123" } = .ok
      { wwt := { base_degrees_per_tile := 1
                 bottoms_up := false
                 center_x := 10
                 center_y := 20
                 file_type := ".png"
                 offset_x := 0
                 offset_y := 0
                 projection := "Tan"
                 quad_tree_map := "0123"
                 rotation := 0
                 tile_levels := 5
                 width_factor := 2
                 thumbnail_url := "http://example.com/thumb.jpg" }
        storage := { legacy_url_template := some "http://example.com/tiles" }
        note := "example image" } :=
  ⟨(C7_amended_add_image_from_set { isetNoQtm with data_set_type := .planet }).1
      (by decide),
   (C7_amended_add_image_from_set { isetNoQtm with quad_tree_map := some "0123" }).2
      (by decide) (by decide)⟩

/-! ## Claim theorems: scene adapter (C3) -/

/-- The keyword-argument list that `add_scene_from_place` passes to the
`ScenePlace` constructor always fails: `zoom_deg` is not a field of
`ScenePlace` (whose fields are `ra_rad`, `dec_rad`, `roll_rad`,
`roi_height_deg`, `roi_aspect_ratio`). -/
theorem from_kwargs_zoom_deg (a b c d : Rat) :
    ScenePlace.from_kwargs
        [("ra_rad", a), ("dec_rad", b), ("zoom_deg", c), ("roll_rad", d)] =
      .error (.typeError "unexpected keyword argument zoom_deg") := by
  simp [ScenePlace.from_kwargs, ScenePlace.fieldNames, List.find?]

/-- C3, evaluated against the code: `add_scene_from_place` can never
succeed.  Its lookup phase behaves as claimed — references resolved in
background/main/foreground order, `LookupError` on an empty result — but
once all lookups succeed the call
`ScenePlace(ra_rad=…, dec_rad=…, zoom_deg=…, roll_rad=…)` raises
`TypeError`, because `data.py`'s `ScenePlace` has no `zoom_deg` field (and
`roi_height_deg`/`roi_aspect_ratio` would be missing).  In particular the
request place with `ra_rad = ra_hr·π/12` etc. is never built. -/
theorem C3_add_scene_from_place_never_succeeds :
    (∀ (f : String → List ImageSummary) (place : Place),
      ∃ e, add_scene_from_place f place = .error e) ∧
    add_scene_from_place (fun _ => []) placeNoRefs =
      .error (.typeError "unexpected keyword argument zoom_deg") ∧
    add_scene_from_place (fun _ => []) placeWithBg =
      .error (.lookupError
        "unable to find Constellations record for image URL http://example.com/tiles") := by
  refine ⟨?_, ?_, ?_⟩
  · intro f place
    cases hb : buildImageLayers f
        [place.background_image_set, place.image_set, place.foreground_image_set] with
    | error e => exact ⟨e, by simp [add_scene_from_place, hb]⟩
    | ok layers =>
        exact ⟨.typeError "unexpected keyword argument zoom_deg",
          by simp [add_scene_from_place, hb, from_kwargs_zoom_deg]⟩
  · rfl
  · rfl

/-! ## Claim theorems: model round-trips (C6) -/

/-- Element-wise decoding inverts element-wise encoding. -/
theorem decodeList_roundtrip {α : Type} (load : Json → Option α) (enc : α → Json)
    (h : ∀ x, load (enc x) = some x) :
    ∀ l : List α, decodeList load (l.map enc) = some l := by
  intro l
  induction l with
  | nil => rfl
  | cons a t ih => simp [decodeList, h, ih]

theorem HandleInfo_roundtrip (x : HandleInfo) : HandleInfo.load x.to_dict = some x := rfl

theorem HandlePermissions_roundtrip (x : HandlePermissions) :
    HandlePermissions.load x.to_dict = some x := rfl

theorem HandleUpdate_roundtrip (x : HandleUpdate) :
    HandleUpdate.load x.to_dict = some x := by
  obtain ⟨d⟩ := x
  cases d <;> rfl

theorem HandleImageStats_roundtrip (x : HandleImageStats) :
    HandleImageStats.load x.to_dict = some x := rfl

theorem HandleSceneStats_roundtrip (x : HandleSceneStats) :
    HandleSceneStats.load x.to_dict = some x := rfl

theorem HandleStats_roundtrip (x : HandleStats) :
    HandleStats.load x.to_dict = some x := rfl

theorem ImageWwt_roundtrip (x : ImageWwt) : ImageWwt.load x.to_dict = some x := rfl

theorem ImageStorage_roundtrip (x : ImageStorage) :
    ImageStorage.load x.to_dict = some x := by
  obtain ⟨l⟩ := x
  cases l <;> rfl

/-- Round trip through the renamed wire field `"_id"`. -/
theorem ImageSummary_roundtrip (x : ImageSummary) :
    ImageSummary.load x.to_dict = some x := by
  simp [ImageSummary.load, ImageSummary.to_dict, jGet, List.lookup, decStr, decNested,
    ImageStorage_roundtrip]

/-- Round trip for the validating type: holds for every value the
constructor can actually produce (valid license, sanitizer-stable
credits). -/
theorem ImageContentPermissions_roundtrip (ctx : ExternalCtx)
    (x : ImageContentPermissions) (hv : x.valid ctx) :
    ImageContentPermissions.load ctx x.to_dict = some x := by
  obtain ⟨copyright, credits, license⟩ := x
  simp only [ImageContentPermissions.valid] at hv
  obtain ⟨hlic, hcred⟩ := hv
  cases credits with
  | none =>
      simp [ImageContentPermissions.load, ImageContentPermissions.to_dict, jGet, List.lookup,
        jOptStr, decStr, decOptStr, ImageContentPermissions.make, hlic]
  | some c =>
      by_cases hc : c = ""
      · subst hc
        simp [ImageContentPermissions.load, ImageContentPermissions.to_dict, jGet, List.lookup,
          jOptStr, decStr, decOptStr, ImageContentPermissions.make, hlic]
      · have hs : ctx.sanitize c = c := hcred c rfl hc
        simp [ImageContentPermissions.load, ImageContentPermissions.to_dict, jGet, List.lookup,
          jOptStr, decStr, decOptStr, ImageContentPermissions.make, hlic, hc, hs]

theorem ImageDisplayInfo_roundtrip (x : ImageDisplayInfo) :
    ImageDisplayInfo.load x.to_dict = some x := by
  simp [ImageDisplayInfo.load, ImageDisplayInfo.to_dict, jGet, List.lookup, decNested,
    ImageWwt_roundtrip, ImageStorage_roundtrip]

theorem ImageInfo_roundtrip (ctx : ExternalCtx) (x : ImageInfo)
    (hv : x.permissions.valid ctx) :
    ImageInfo.load ctx x.to_dict = some x := by
  simp [ImageInfo.load, ImageInfo.to_dict, jGet, List.lookup, decNested, decStr,
    HandleInfo_roundtrip, ImageWwt_roundtrip, ImageStorage_roundtrip,
    ImageContentPermissions_roundtrip ctx x.permissions hv]

/-- Reduction of the optional-nested decoder on an encoded
`ImageContentPermissions` (an object, hence not `null`). -/
theorem decOptNested_permissions (ctx : ExternalCtx) (p : ImageContentPermissions) :
    decOptNested (ImageContentPermissions.load ctx) (some p.to_dict) =
      (ImageContentPermissions.load ctx p.to_dict).map some := rfl

/-- Reduction of the optional-nested decoder on an encoded
`ImageDisplayInfo` (an object, hence not `null`). -/
theorem decOptNested_display (b : ImageDisplayInfo) :
    decOptNested ImageDisplayInfo.load (some b.to_dict) =
      (ImageDisplayInfo.load b.to_dict).map some := rfl

/-- Reduction of the optional-nested decoder on `null`. -/
theorem decOptNested_null {a : Type} (load : Json -> Option a) :
    decOptNested load (some .null) = some none := rfl

theorem ImageUpdate_roundtrip (ctx : ExternalCtx) (x : ImageUpdate)
    (hv : ∀ p, x.permissions = some p → p.valid ctx) :
    ImageUpdate.load ctx x.to_dict = some x := by
  obtain ⟨note, permissions⟩ := x
  cases permissions with
  | none =>
      cases note <;>
        simp [ImageUpdate.load, ImageUpdate.to_dict, jGet, List.lookup, jOptStr, decOptStr,
          decOptNested]
  | some p =>
      have hp := ImageContentPermissions_roundtrip ctx p (hv p rfl)
      cases note <;>
        simp [ImageUpdate.load, ImageUpdate.to_dict, jGet, List.lookup, jOptStr, decOptStr,
          decOptNested_permissions ctx, hp]

theorem ImageApiPermissions_roundtrip (x : ImageApiPermissions) :
    ImageApiPermissions.load x.to_dict = some x := rfl

theorem ScenePlace_roundtrip (x : ScenePlace) : ScenePlace.load x.to_dict = some x := rfl

theorem SceneImageLayer_roundtrip (x : SceneImageLayer) :
    SceneImageLayer.load x.to_dict = some x := rfl

theorem SceneContent_roundtrip (x : SceneContent) :
    SceneContent.load x.to_dict = some x := by
  obtain ⟨l⟩ := x
  cases l with
  | none => rfl
  | some layers =>
      simp [SceneContent.load, SceneContent.to_dict, jGet, List.lookup, decOptList,
        decodeList_roundtrip SceneImageLayer.load SceneImageLayer.to_dict
          SceneImageLayer_roundtrip]

theorem SceneImageLayerHydrated_roundtrip (x : SceneImageLayerHydrated) :
    SceneImageLayerHydrated.load x.to_dict = some x := by
  simp [SceneImageLayerHydrated.load, SceneImageLayerHydrated.to_dict, jGet, List.lookup,
    decNested, decNum, ImageDisplayInfo_roundtrip]

theorem SceneContentHydrated_roundtrip (x : SceneContentHydrated) :
    SceneContentHydrated.load x.to_dict = some x := by
  obtain ⟨bg, layers⟩ := x
  cases bg <;> cases layers <;>
    simp [SceneContentHydrated.load, SceneContentHydrated.to_dict, jGet, List.lookup,
      decOptNested_display, decOptNested_null, decOptList, ImageDisplayInfo_roundtrip,
      decodeList_roundtrip SceneImageLayerHydrated.load
        SceneImageLayerHydrated.to_dict SceneImageLayerHydrated_roundtrip]

theorem ScenePreviews_roundtrip (x : ScenePreviews) :
    ScenePreviews.load x.to_dict = some x := by
  obtain ⟨v, t⟩ := x
  cases v <;> cases t <;> rfl

theorem SceneHydrated_roundtrip (x : SceneHydrated) :
    SceneHydrated.load x.to_dict = some x := by
  simp [SceneHydrated.load, SceneHydrated.to_dict, jGet, List.lookup, decNested, decStr, decInt,
    HandleInfo_roundtrip, ScenePlace_roundtrip, SceneContentHydrated_roundtrip,
    ScenePreviews_roundtrip]

theorem SceneInfo_roundtrip (x : SceneInfo) : SceneInfo.load x.to_dict = some x := rfl

theorem ScenePermissions_roundtrip (x : ScenePermissions) :
    ScenePermissions.load x.to_dict = some x := rfl

theorem SceneUpdate_roundtrip (x : SceneUpdate) :
    SceneUpdate.load x.to_dict = some x := by
  obtain ⟨o, pl, tx⟩ := x
  cases o <;> cases pl <;> cases tx <;> rfl

/-- C6: `decode (encode x) = x` for every type of the model layer
(`data.py`), for arbitrary valid field assignments, all-optional-absent
included.  For the three types touching `ImageContentPermissions` —
whose decode re-runs license validation and credits sanitization through
the constructor — "valid" means what the constructor produces: the license
validates and any non-empty credits string is a fixed point of the
sanitizer.  `ImageSummary` round-trips through its renamed wire field
`"_id"`. -/
theorem C6_model_roundtrip (ctx : ExternalCtx) :
    (∀ x : ImageContentPermissions, x.valid ctx →
      ImageContentPermissions.load ctx x.to_dict = some x) ∧
    (∀ x : ImageInfo, x.permissions.valid ctx →
      ImageInfo.load ctx x.to_dict = some x) ∧
    (∀ x : ImageUpdate, (∀ p, x.permissions = some p → p.valid ctx) →
      ImageUpdate.load ctx x.to_dict = some x) ∧
    (∀ x : HandleInfo, HandleInfo.load x.to_dict = some x) ∧
    (∀ x : HandlePermissions, HandlePermissions.load x.to_dict = some x) ∧
    (∀ x : HandleUpdate, HandleUpdate.load x.to_dict = some x) ∧
    (∀ x : HandleImageStats, HandleImageStats.load x.to_dict = some x) ∧
    (∀ x : HandleSceneStats, HandleSceneStats.load x.to_dict = some x) ∧
    (∀ x : HandleStats, HandleStats.load x.to_dict = some x) ∧
    (∀ x : ImageWwt, ImageWwt.load x.to_dict = some x) ∧
    (∀ x : ImageStorage, ImageStorage.load x.to_dict = some x) ∧
    (∀ x : ImageSummary, ImageSummary.load x.to_dict = some x) ∧
    (∀ x : ImageDisplayInfo, ImageDisplayInfo.load x.to_dict = some x) ∧
    (∀ x : ImageApiPermissions, ImageApiPermissions.load x.to_dict = some x) ∧
    (∀ x : ScenePlace, ScenePlace.load x.to_dict = some x) ∧
    (∀ x : SceneImageLayer, SceneImageLayer.load x.to_dict = some x) ∧
    (∀ x : SceneContent, SceneContent.load x.to_dict = some x) ∧
    (∀ x : SceneImageLayerHydrated, SceneImageLayerHydrated.load x.to_dict = some x) ∧
    (∀ x : SceneContentHydrated, SceneContentHydrated.load x.to_dict = some x) ∧
    (∀ x : ScenePreviews, ScenePreviews.load x.to_dict = some x) ∧
    (∀ x : SceneHydrated, SceneHydrated.load x.to_dict = some x) ∧
    (∀ x : SceneInfo, SceneInfo.load x.to_dict = some x) ∧
    (∀ x : ScenePermissions, ScenePermissions.load x.to_dict = some x) ∧
    (∀ x : SceneUpdate, SceneUpdate.load x.to_dict = some x) :=
  ⟨ImageContentPermissions_roundtrip ctx, ImageInfo_roundtrip ctx,
   ImageUpdate_roundtrip ctx, HandleInfo_roundtrip, HandlePermissions_roundtrip,
   HandleUpdate_roundtrip, HandleImageStats_roundtrip, HandleSceneStats_roundtrip,
   HandleStats_roundtrip, ImageWwt_roundtrip, ImageStorage_roundtrip,
   ImageSummary_roundtrip, ImageDisplayInfo_roundtrip, ImageApiPermissions_roundtrip,
   ScenePlace_roundtrip, SceneImageLayer_roundtrip, SceneContent_roundtrip,
   SceneImageLayerHydrated_roundtrip, SceneContentHydrated_roundtrip,
   ScenePreviews_roundtrip, SceneHydrated_roundtrip, SceneInfo_roundtrip,
   ScenePermissions_roundtrip, SceneUpdate_roundtrip⟩

/-- C6 witness: concrete round trips through `C6_model_roundtrip` with the
identity sanitizer and an accepting license validator, discharging each
validity hypothesis — `ImageContentPermissions` with non-empty credits,
`ImageInfo` with credits absent, `ImageUpdate` with all optional fields
absent, and `ImageSummary` through its `"_id"` wire field. -/
theorem C6_model_roundtrip_witness :
    ImageContentPermissions.load ⟨fun _ => true, fun s => s⟩
        (ImageContentPermissions.to_dict ⟨"(c) Example", some "credit text", "CC-BY-4.0"⟩) =
      some ⟨"(c) Example", some "credit text", "CC-BY-4.0"⟩ ∧
    ImageInfo.load ⟨fun _ => true, fun s => s⟩
        (ImageInfo.to_dict ⟨"0123456789abcdef01234567", "76543210fedcba9876543210",
          ⟨"h", "Handle"⟩, "2023-03-28T16:53:18.364Z",
          ⟨1, false, 0, 0, ".png", 0, 0, "Tan", "", 0, 5, 2, "thumb"⟩,
          ⟨"(c) Example", none, "MIT"⟩, ⟨none⟩, "a note"⟩) =
      some ⟨"0123456789abcdef01234567", "76543210fedcba9876543210",
        ⟨"h", "Handle"⟩, "2023-03-28T16:53:18.364Z",
        ⟨1, false, 0, 0, ".png", 0, 0, "Tan", "", 0, 5, 2, "thumb"⟩,
        ⟨"(c) Example", none, "MIT"⟩, ⟨none⟩, "a note"⟩ ∧
    ImageUpdate.load ⟨fun _ => true, fun s => s⟩ (ImageUpdate.to_dict ⟨none, none⟩) =
      some ⟨none, none⟩ ∧
    ImageSummary.load (ImageSummary.to_dict ⟨"0123456789abcdef01234567",
        "76543210fedcba9876543210", "2023-03-28T16:53:18.364Z", "", ⟨none⟩⟩) =
      some ⟨"0123456789abcdef01234567", "76543210fedcba9876543210",
        "2023-03-28T16:53:18.364Z", "", ⟨none⟩⟩ :=
  ⟨(C6_model_roundtrip ⟨fun _ => true, fun s => s⟩).1 _
      ⟨rfl, fun c hc _ => by cases hc; rfl⟩,
   (C6_model_roundtrip ⟨fun _ => true, fun s => s⟩).2.1 _
      ⟨rfl, fun c hc _ => nomatch hc⟩,
   (C6_model_roundtrip ⟨fun _ => true, fun s => s⟩).2.2.1 _ (fun p hp => nomatch hp),
   (C6_model_roundtrip ⟨fun _ => true, fun s => s⟩).2.2.2.2.2.2.2.2.2.2.2.1 _⟩

/-! ## Claim theorems: response envelope (C9) -/

/-- C9: every handle-facade operation (get, permissions, stats, scene_info,
update, add_image, add_scene, get_timeline) pops the top-level `"error"`
key from the decoded JSON envelope before decoding the payload — the
payload decoder runs on the mapping with `"error"` removed — and raises
(`KeyError`) whenever the response JSON lacks the `"error"` key, even
though the HTTP status was a success. -/
theorem C9_error_envelope (entries : List (String × Json)) :
    ((entries.lookup "error").isSome = false →
      handle_get_response entries = .error (.keyError "error") ∧
      handle_permissions_response entries = .error (.keyError "error") ∧
      handle_stats_response entries = .error (.keyError "error") ∧
      handle_scene_info_response entries = .error (.keyError "error") ∧
      handle_update_response entries = .error (.keyError "error") ∧
      handle_add_image_response entries = .error (.keyError "error") ∧
      handle_add_scene_response entries = .error (.keyError "error") ∧
      handle_get_timeline_response entries = .error (.keyError "error")) ∧
    ((entries.lookup "error").isSome = true →
      handle_get_response entries =
        loadModel HandleInfo.load (entries.filter (fun kv => kv.1 != "error")) ∧
      handle_permissions_response entries =
        loadModel HandlePermissions.load (entries.filter (fun kv => kv.1 != "error")) ∧
      handle_stats_response entries =
        loadModel HandleStats.load (entries.filter (fun kv => kv.1 != "error")) ∧
      handle_scene_info_response entries =
        (loadModel SceneInfoResponse.load
          (entries.filter (fun kv => kv.1 != "error"))).map (·.results) ∧
      handle_update_response entries =
        .ok (entries.filter (fun kv => kv.1 != "error")) ∧
      handle_add_image_response entries =
        (loadModel AddImageResponse.load
          (entries.filter (fun kv => kv.1 != "error"))).map (·.id) ∧
      handle_add_scene_response entries =
        (loadModel AddSceneResponse.load
          (entries.filter (fun kv => kv.1 != "error"))).map (·.id) ∧
      handle_get_timeline_response entries =
        (loadModel TimelineResponse.load
          (entries.filter (fun kv => kv.1 != "error"))).map (·.results)) := by
  constructor
  · intro h
    refine ⟨?_, ?_, ?_, ?_, ?_, ?_, ?_, ?_⟩ <;>
      simp [handle_get_response, handle_permissions_response, handle_stats_response,
        handle_scene_info_response, handle_update_response, handle_add_image_response,
        handle_add_scene_response, handle_get_timeline_response, popError, h,
        Except.bind, Except.map]
  · intro h
    refine ⟨?_, ?_, ?_, ?_, ?_, ?_, ?_, ?_⟩ <;>
      simp [handle_get_response, handle_permissions_response, handle_stats_response,
        handle_scene_info_response, handle_update_response, handle_add_image_response,
        handle_add_scene_response, handle_get_timeline_response, popError, h,
        Except.bind, Except.map]

/-- C9 witness: a success envelope with the `"error"` flag decodes (for
`get`) to the payload with the flag stripped; the same payload without the
flag raises `KeyError`. -/
theorem C9_error_envelope_witness :
    handle_get_response
        [("error", .bool false), ("handle", .str "h"), ("display_name", .str "d")] =
      .ok ⟨"h", "d"⟩ ∧
    handle_get_response [("handle", .str "h"), ("display_name", .str "d")] =
      .error (.keyError "error") := by
  constructor
  · have h := (C9_error_envelope
      [("error", .bool false), ("handle", .str "h"), ("display_name", .str "d")]).2 rfl
    rw [h.1]
    rfl
  · exact ((C9_error_envelope
      [("handle", .str "h"), ("display_name", .str "d")]).1 rfl).1
